import Mathlib

/-!
Verification development for a Flask backend relay (`server.py`).

The source is shallowly embedded: Python strings become `List Char`,
JSON values become the inductive `Json`, outbound HTTP outcomes become
`HttpOutcome`, uncaught Python exceptions become `Except PyErr`, and each
Flask route becomes a pure function from the parsed request body and the
modelled upstream outcomes to an HTTP status, a JSON response body and a
count of outbound API calls.
-/

/-- JSON values, as produced by Python `json.loads`.  Object fields keep
their textual keys; `jlookup` returns the first binding, which agrees with
Python dictionaries whenever keys are distinct (as in all payloads here). -/
inductive Json where
  | null : Json
  | bool : Bool → Json
  | num : Int → Json
  | str : List Char → Json
  | arr : List Json → Json
  | obj : List (List Char × Json) → Json

/-- Python truthiness of a JSON value: `None`, `False`, `0`, `""`, `[]`
and `dict()` are falsy, everything else is truthy. -/
def truthy : Json → Bool
  | Json.null => false
  | Json.bool b => b
  | Json.num n => n != 0
  | Json.str s => !s.isEmpty
  | Json.arr xs => !xs.isEmpty
  | Json.obj kvs => !kvs.isEmpty

/-- Association-list lookup, modelling Python `dict.get` (absent key gives
`none`, which models Python `None`). -/
def jlookup (k : List Char) : List (List Char × Json) → Option Json
  | [] => none
  | (k₁, v) :: rest => if k₁ = k then some v else jlookup k rest

/-- An uncaught Python exception (KeyError, TypeError, AttributeError, ...)
escaping into the Flask layer, where it produces an HTTP 500. -/
inductive PyErr where
  | err : PyErr

/-- Python bracket indexing `j[k]` with a string key: succeeds on a
dictionary holding the key, raises otherwise (KeyError / TypeError). -/
def pyIndex (j : Json) (k : List Char) : Except PyErr Json :=
  match j with
  | Json.obj kvs =>
    match jlookup k kvs with
    | some v => Except.ok v
    | none => Except.error PyErr.err
  | _ => Except.error PyErr.err

/-- Whitespace characters stripped by Python `str.strip()` (the ASCII ones,
which cover every string the program manipulates). -/
def pySpace (c : Char) : Bool :=
  c = ' ' || c = '\t' || c = '\n' || c = '\r' || c = Char.ofNat 11 || c = Char.ofNat 12

/-- Python `str.strip()`: drop leading and trailing whitespace. -/
def pyStrip (s : List Char) : List Char :=
  ((s.dropWhile pySpace).reverse.dropWhile pySpace).reverse

/-- Fuel-driven worker for `pyReplace`.  The fuel is only a structural
termination device; `pyReplace` always supplies `s.length`, which is enough
(`pyRepGo_congr` below shows the result does not depend on the fuel). -/
def pyRepGo (pat repl : List Char) : Nat → List Char → List Char
  | _, [] => []
  | 0, s => s
  | fuel + 1, c :: rest =>
    if !pat.isEmpty && List.isPrefixOf pat (c :: rest) then
      repl ++ pyRepGo pat repl fuel (List.drop pat.length (c :: rest))
    else
      c :: pyRepGo pat repl fuel rest

/-- Python `str.replace(pat, repl)`: replace every occurrence of `pat`,
scanning left to right without overlap. -/
def pyReplace (pat repl s : List Char) : List Char :=
  pyRepGo pat repl s.length s

/-- Python substring test `pat in s`. -/
def containsSeq (pat : List Char) : List Char → Bool
  | [] => pat.isEmpty
  | c :: rest => List.isPrefixOf pat (c :: rest) || containsSeq pat rest

/-- The opening markdown fence marker removed by `call_gemini_api`. -/
def fenceOpen : List Char := ("```json\n").data

/-- The closing markdown fence marker removed by `call_gemini_api`. -/
def fenceClose : List Char := ("\n```").data

/-- The fence-stripping step of `call_gemini_api` (server.py line 71):
`text.replace('```json\n', '').replace('\n```', '').strip()`. -/
def cleanGemini (t : List Char) : List Char :=
  pyStrip (pyReplace fenceClose [] (pyReplace fenceOpen [] t))

/-- The opening fence marker without its newline; a payload ending in this
tag would fuse with the closing fence into a removable occurrence. -/
def jsonTag : List Char := ("```json").data

/-- Decimal digit character. -/
def digitChar (n : Nat) : Char := Char.ofNat (48 + n)

/-- Lower-case hexadecimal digit character. -/
def hexChar (n : Nat) : Char := if n < 10 then digitChar n else Char.ofNat (87 + n)

/-- Decimal digits of a natural number. -/
def natChars (n : Nat) : List Char :=
  if _h : n < 10 then [digitChar n]
  else natChars (n / 10) ++ [digitChar (n % 10)]
termination_by n
decreasing_by
  exact Nat.div_lt_self (by omega) (by omega)

/-- Decimal rendering of an integer. -/
def intChars (i : Int) : List Char :=
  if i < 0 then '-' :: natChars i.natAbs else natChars i.toNat

/-- JSON string escaping of a single character. -/
def escChar (c : Char) : List Char :=
  if c = '"' then ['\\', '"']
  else if c = '\\' then ['\\', '\\']
  else if c = '\n' then ['\\', 'n']
  else if c = '\r' then ['\\', 'r']
  else if c = '\t' then ['\\', 't']
  else if c.toNat < 32 then ['\\', 'u', '0', '0', digitChar (c.toNat / 16), hexChar (c.toNat % 16)]
  else [c]

/-- JSON string escaping of string contents. -/
def escStr : List Char → List Char
  | [] => []
  | c :: rest => escChar c ++ escStr rest

mutual

/-- Compact JSON text of a value: the wire form of a structured completion
payload (no literal newlines; string data is escaped as JSON requires). -/
def serialize : Json → List Char
  | Json.null => ("null").data
  | Json.bool true => ("true").data
  | Json.bool false => ("false").data
  | Json.num i => intChars i
  | Json.str s => '"' :: (escStr s ++ ['"'])
  | Json.arr xs => '[' :: (serializeItems xs ++ [']'])
  | Json.obj kvs => Char.ofNat 123 :: (serializeFields kvs ++ [Char.ofNat 125])

/-- JSON text of the comma-separated elements of an array. -/
def serializeItems : List Json → List Char
  | [] => []
  | [x] => serialize x
  | x :: y :: rest => serialize x ++ ',' :: serializeItems (y :: rest)

/-- JSON text of the comma-separated members of an object. -/
def serializeFields : List (List Char × Json) → List Char
  | [] => []
  | [(k, v)] => '"' :: (escStr k ++ '"' :: ':' :: serialize v)
  | (k, v) :: kv :: rest =>
    ('"' :: (escStr k ++ '"' :: ':' :: serialize v)) ++ ',' :: serializeFields (kv :: rest)

end

/-- Outcome of one outbound HTTP request, as observed by the caller:
a transport error (`requests.exceptions.RequestException`, including
timeouts), a non-2xx status (`raise_for_status`), a body that is not JSON
(`response.json()` raising), or a parsed JSON body. -/
inductive HttpOutcome where
  | netErr : HttpOutcome
  | httpErr : HttpOutcome
  | badJsonBody : HttpOutcome
  | ok : Json → HttpOutcome

/-- Request-body keys and literal strings used by the routes. -/
def kSyllabus : List Char := ("syllabus_text").data

def kTopic : List Char := ("topic").data

def kTopics : List Char := ("topics").data

def kTitle : List Char := ("title").data

def kUrl : List Char := ("url").data

def kNotes : List Char := ("notes").data

def kError : List Char := ("error").data

def kFlashcards : List Char := ("flashcards").data

def kQuestions : List Char := ("questions").data

def kCandidates : List Char := ("candidates").data

def kContent : List Char := ("content").data

def kParts : List Char := ("parts").data

def kText : List Char := ("text").data

def kItems : List Char := ("items").data

def kId : List Char := ("id").data

def kVideoId : List Char := ("videoId").data

def kSnippet : List Char := ("snippet").data

def errSyllabus : List Char := ("Syllabus text is required").data

def errTopic : List Char := ("Topic is required").data

def notesFallback : List Char := ("Could not generate notes for this topic.").data

def sentinelTitle : List Char := ("Failed to suggest video").data

def ytBase : List Char := ("https://www.youtube.com/watch?v=").data

/-- Python `str(...)` of a JSON value when interpolated into the watch URL
f-string; only string video ids occur in practice, and only that case is
exercised by any theorem below. -/
def pyStrOf : Json → List Char
  | Json.str s => s
  | v => serialize v

/-- `call_gemini_api(prompt, response_schema)` (server.py lines 39-82),
modelled over the outcome of its one `requests.post`.  The prompt only
influences the remote service, so it is not a parameter; `schema` tells
whether `response_schema` was passed; `parse` models `json.loads`
(returning `none` where Python raises `json.JSONDecodeError`).  The result
is Python `None` (`Except.ok none`), a value (`Except.ok (some v)`), or an
uncaught exception.  A parsed JSON `null` is Python `None`, so it collapses
into `Except.ok none` exactly as in the source. -/
def call_gemini_api (schema : Bool) (parse : List Char → Option Json) (o : HttpOutcome) :
    Except PyErr (Option Json) :=
  match o with
  | HttpOutcome.netErr => Except.ok none
  | HttpOutcome.httpErr => Except.ok none
  | HttpOutcome.badJsonBody => Except.ok none
  | HttpOutcome.ok result =>
    match result with
    | Json.obj fields =>
      match jlookup kCandidates fields with
      | none => Except.ok none
      | some cand =>
        if truthy cand = false then Except.ok none
        else
          match cand with
          | Json.arr (c₀ :: _) =>
            match c₀ with
            | Json.obj c₀f =>
              match jlookup kContent c₀f with
              | none => Except.ok none
              | some content =>
                if truthy content = false then Except.ok none
                else
                  match content with
                  | Json.obj cf =>
                    match jlookup kParts cf with
                    | none => Except.ok none
                    | some parts =>
                      if truthy parts = false then Except.ok none
                      else
                        match parts with
                        | Json.arr (p₀ :: _) =>
                          match pyIndex p₀ kText with
                          | Except.error e => Except.error e
                          | Except.ok textV =>
                            match textV with
                            | Json.str ts =>
                              if schema then
                                match parse (cleanGemini ts) with
                                | none => Except.ok none
                                | some Json.null => Except.ok none
                                | some v => Except.ok (some v)
                              else Except.ok (some (Json.str (pyStrip ts)))
                            | _ => Except.error PyErr.err
                        | _ => Except.error PyErr.err
                  | _ => Except.error PyErr.err
            | _ => Except.error PyErr.err
          | _ => Except.error PyErr.err
    | _ => Except.error PyErr.err

/-- A video suggestion as assembled by `search_youtube_videos`: the raw
title value from the search item and the synthesised watch URL. -/
structure Video where
  title : Json
  url : List Char

/-- Python `str.lower()` (ASCII case folding, which covers the keyword
heuristic). -/
def lowerStr (s : List Char) : List Char := s.map Char.toLower

/-- The keyword test of the selection heuristic (server.py line 113),
applied to the lowered title. -/
def keywordHit (t : List Char) : Bool :=
  containsSeq (("lecture").data) t || containsSeq (("tutorial").data) t ||
    containsSeq (("course").data) t

/-- The `for item in results['items']` loop (server.py lines 107-114):
extract `item['id']['videoId']` and `item['snippet']['title']`, return the
first item whose lowered title contains a keyword.  Any malformed item
raises, which the enclosing `except Exception` of the source turns into
`None`. -/
def scanItems : List Json → Except PyErr (Option Video)
  | [] => Except.ok none
  | item :: rest =>
    match pyIndex item kId with
    | Except.error e => Except.error e
    | Except.ok idv =>
      match pyIndex idv kVideoId with
      | Except.error e => Except.error e
      | Except.ok vid =>
        match pyIndex item kSnippet with
        | Except.error e => Except.error e
        | Except.ok snip =>
          match pyIndex snip kTitle with
          | Except.error e => Except.error e
          | Except.ok titleV =>
            match titleV with
            | Json.str ts =>
              if keywordHit (lowerStr ts) then
                Except.ok (some ⟨Json.str ts, ytBase ++ pyStrOf vid⟩)
              else scanItems rest
            | _ => Except.error PyErr.err

/-- Body of `search_youtube_videos` after a parsed response (server.py
lines 104-122): if `results` and `results.get('items')` are truthy, scan
the items for a keyword match, otherwise fall back to the first item;
return `none` when the guard fails (line 122). -/
def searchBody (body : Json) : Except PyErr (Option Video) :=
  if truthy body = false then Except.ok none
  else
    match body with
    | Json.obj fields =>
      match jlookup kItems fields with
      | none => Except.ok none
      | some items =>
        if truthy items = false then Except.ok none
        else
          match items with
          | Json.arr xs =>
            match scanItems xs with
            | Except.error e => Except.error e
            | Except.ok (some v) => Except.ok (some v)
            | Except.ok none =>
              match xs with
              | [] => Except.ok none
              | first :: _ =>
                match pyIndex first kId with
                | Except.error e => Except.error e
                | Except.ok idv =>
                  match pyIndex idv kVideoId with
                  | Except.error e => Except.error e
                  | Except.ok vid =>
                    match pyIndex first kSnippet with
                    | Except.error e => Except.error e
                    | Except.ok snip =>
                      match pyIndex snip kTitle with
                      | Except.error e => Except.error e
                      | Except.ok titleV =>
                        Except.ok (some ⟨titleV, ytBase ++ pyStrOf vid⟩)
          | _ => Except.error PyErr.err
    | _ => Except.error PyErr.err

/-- `search_youtube_videos(query)` (server.py lines 84-128) over the
outcome of its `requests.get`.  Its `except` clauses catch every
exception (`except Exception`), so every failure collapses to `None`. -/
def search_youtube_videos (o : HttpOutcome) : Option Video :=
  match o with
  | HttpOutcome.netErr => none
  | HttpOutcome.httpErr => none
  | HttpOutcome.badJsonBody => none
  | HttpOutcome.ok body =>
    match searchBody body with
    | Except.ok r => r
    | Except.error _ => none

/-- One handler response: HTTP status and JSON body. -/
structure HOut where
  status : Nat
  body : Json

/-- Count of outbound API calls a handler issued. -/
structure Calls where
  gemini : Nat
  search : Nat

/-- `data.get(key, '')` on the parsed request body. -/
def reqField (k : List Char) (body : List (List Char × Json)) : Json :=
  (jlookup k body).getD (Json.str [])

/-- Python `None`-to-JSON conversion performed by `jsonify`. -/
def optJson : Option Json → Json
  | none => Json.null
  | some v => v

/-- HTTP status of a route result, `none` when an exception escaped. -/
def statusOf (r : Except PyErr HOut × Calls) : Option Nat :=
  match r.1 with
  | Except.ok h => some h.status
  | Except.error _ => none

/-- `/extract_title` (server.py lines 147-162). -/
def extract_title_route (body : List (List Char × Json))
    (parse : List Char → Option Json) (o : HttpOutcome) : Except PyErr HOut × Calls :=
  let syllabus := reqField kSyllabus body
  if truthy syllabus = false then
    (Except.ok ⟨400, Json.obj [(kError, Json.str errSyllabus)]⟩, ⟨0, 0⟩)
  else
    match call_gemini_api false parse o with
    | Except.error e => (Except.error e, ⟨1, 0⟩)
    | Except.ok t => (Except.ok ⟨200, Json.obj [(kTitle, optJson t)]⟩, ⟨1, 0⟩)

/-- The list comprehension of `/extract_topics` (server.py line 190):
`[item.get('topic') for item in topics_raw if item.get('topic')]`.
A non-dictionary element raises AttributeError. -/
def topicsComp : List Json → Except PyErr (List Json)
  | [] => Except.ok []
  | item :: rest =>
    match item with
    | Json.obj kvs =>
      match jlookup kTopic kvs with
      | some tv =>
        if truthy tv then
          match topicsComp rest with
          | Except.ok ts => Except.ok (tv :: ts)
          | Except.error e => Except.error e
        else topicsComp rest
      | none => topicsComp rest
    | _ => Except.error PyErr.err

/-- `/extract_topics` (server.py lines 164-192). -/
def extract_topics_route (body : List (List Char × Json))
    (parse : List Char → Option Json) (o : HttpOutcome) : Except PyErr HOut × Calls :=
  let syllabus := reqField kSyllabus body
  if truthy syllabus = false then
    (Except.ok ⟨400, Json.obj [(kError, Json.str errSyllabus)]⟩, ⟨0, 0⟩)
  else
    match call_gemini_api true parse o with
    | Except.error e => (Except.error e, ⟨1, 0⟩)
    | Except.ok none => (Except.ok ⟨200, Json.obj [(kTopics, Json.arr [])]⟩, ⟨1, 0⟩)
    | Except.ok (some v) =>
      if truthy v = false then (Except.ok ⟨200, Json.obj [(kTopics, Json.arr [])]⟩, ⟨1, 0⟩)
      else
        match v with
        | Json.arr items =>
          match topicsComp items with
          | Except.error e => (Except.error e, ⟨1, 0⟩)
          | Except.ok ts => (Except.ok ⟨200, Json.obj [(kTopics, Json.arr ts)]⟩, ⟨1, 0⟩)
        | _ => (Except.error PyErr.err, ⟨1, 0⟩)

/-- `/suggest_video` (server.py lines 194-236): YouTube search first, then
the generative fallback, then the literal failure sentinel. -/
def suggest_video_route (body : List (List Char × Json))
    (parse : List Char → Option Json) (so go : HttpOutcome) : Except PyErr HOut × Calls :=
  let topic := reqField kTopic body
  if truthy topic = false then
    (Except.ok ⟨400, Json.obj [(kError, Json.str errTopic)]⟩, ⟨0, 0⟩)
  else
    match search_youtube_videos so with
    | some v => (Except.ok ⟨200, Json.obj [(kTitle, v.title), (kUrl, Json.str v.url)]⟩, ⟨0, 1⟩)
    | none =>
      match call_gemini_api true parse go with
      | Except.error e => (Except.error e, ⟨1, 1⟩)
      | Except.ok raw =>
        match raw with
        | none =>
          (Except.ok ⟨200, Json.obj [(kTitle, Json.str sentinelTitle),
            (kUrl, Json.str (("#").data))]⟩, ⟨1, 1⟩)
        | some v =>
          if truthy v = false then
            (Except.ok ⟨200, Json.obj [(kTitle, Json.str sentinelTitle),
              (kUrl, Json.str (("#").data))]⟩, ⟨1, 1⟩)
          else
            match v with
            | Json.obj kvs =>
              (Except.ok ⟨200, Json.obj [(kTitle, optJson (jlookup kTitle kvs)),
                (kUrl, optJson (jlookup kUrl kvs))]⟩, ⟨1, 1⟩)
            | _ => (Except.error PyErr.err, ⟨1, 1⟩)

/-- `/generate_notes` (server.py lines 238-252). -/
def generate_notes_route (body : List (List Char × Json))
    (parse : List Char → Option Json) (o : HttpOutcome) : Except PyErr HOut × Calls :=
  let topic := reqField kTopic body
  if truthy topic = false then
    (Except.ok ⟨400, Json.obj [(kError, Json.str errTopic)]⟩, ⟨0, 0⟩)
  else
    match call_gemini_api false parse o with
    | Except.error e => (Except.error e, ⟨1, 0⟩)
    | Except.ok raw =>
      match raw with
      | none => (Except.ok ⟨200, Json.obj [(kNotes, Json.str notesFallback)]⟩, ⟨1, 0⟩)
      | some v =>
        if truthy v then (Except.ok ⟨200, Json.obj [(kNotes, v)]⟩, ⟨1, 0⟩)
        else (Except.ok ⟨200, Json.obj [(kNotes, Json.str notesFallback)]⟩, ⟨1, 0⟩)

/-- `/generate_flashcards` (server.py lines 254-283).  Note: the upstream
array is returned unchanged; no per-entry filtering happens. -/
def generate_flashcards_route (body : List (List Char × Json))
    (parse : List Char → Option Json) (o : HttpOutcome) : Except PyErr HOut × Calls :=
  let topic := reqField kTopic body
  if truthy topic = false then
    (Except.ok ⟨400, Json.obj [(kError, Json.str errTopic)]⟩, ⟨0, 0⟩)
  else
    match call_gemini_api true parse o with
    | Except.error e => (Except.error e, ⟨1, 0⟩)
    | Except.ok raw =>
      match raw with
      | none => (Except.ok ⟨200, Json.obj [(kFlashcards, Json.arr [])]⟩, ⟨1, 0⟩)
      | some v =>
        if truthy v then (Except.ok ⟨200, Json.obj [(kFlashcards, v)]⟩, ⟨1, 0⟩)
        else (Except.ok ⟨200, Json.obj [(kFlashcards, Json.arr [])]⟩, ⟨1, 0⟩)

/-- `/generate_questions` (server.py lines 285-309).  Like flashcards, the
upstream array is returned unchanged. -/
def generate_questions_route (body : List (List Char × Json))
    (parse : List Char → Option Json) (o : HttpOutcome) : Except PyErr HOut × Calls :=
  let topic := reqField kTopic body
  if truthy topic = false then
    (Except.ok ⟨400, Json.obj [(kError, Json.str errTopic)]⟩, ⟨0, 0⟩)
  else
    match call_gemini_api true parse o with
    | Except.error e => (Except.error e, ⟨1, 0⟩)
    | Except.ok raw =>
      match raw with
      | none => (Except.ok ⟨200, Json.obj [(kQuestions, Json.arr [])]⟩, ⟨1, 0⟩)
      | some v =>
        if truthy v then (Except.ok ⟨200, Json.obj [(kQuestions, v)]⟩, ⟨1, 0⟩)
        else (Except.ok ⟨200, Json.obj [(kQuestions, Json.arr [])]⟩, ⟨1, 0⟩)

/-- Python falsiness of an environment value (`os.getenv` gives `None` for
an absent variable; the source tests `if not KEY`). -/
def envFalsy : Option (List Char) → Bool
  | none => true
  | some s => s.isEmpty

/-- Diagnostic lines printed when GOOGLE_API_KEY is missing (server.py
lines 21-23). -/
def googleMsgs : List (List Char) :=
  [("CRITICAL: GOOGLE_API_KEY environment variable not set.").data,
   ("Please set it in your .env file or as an environment variable directly.").data,
   ("You can get one from https://makersuite.google.com/app/apikey").data]

/-- Diagnostic lines printed when YOUTUBE_API_KEY is missing (server.py
lines 27-30). -/
def youtubeMsgs : List (List Char) :=
  [("CRITICAL: YOUTUBE_API_KEY environment variable not set.").data,
   ("Please set it in your .env file or as an environment variable directly.").data,
   ("You can get one from console.cloud.google.com, APIs & Services -> Credentials.").data,
   ("Also, ensure YouTube Data API v3 is enabled in your GCP project.").data]

/-- Module-level credential checks (server.py lines 16-31), run before the
server starts.  `some (code, msgs)` is `exit(code)` after printing `msgs`
(the process never serves a request); `none` means startup proceeds. -/
def startup_check (google youtube : Option (List Char)) :
    Option (Nat × List (List Char)) :=
  if envFalsy google then some (1, googleMsgs)
  else if envFalsy youtube then some (1, youtubeMsgs)
  else none

/-- A well-formed search result, for stating the selection heuristic. -/
structure Candidate where
  videoId : List Char
  title : List Char

/-- The JSON item the search API returns for a candidate. -/
def mkItem (c : Candidate) : Json :=
  Json.obj [(kId, Json.obj [(kVideoId, Json.str c.videoId)]),
    (kSnippet, Json.obj [(kTitle, Json.str c.title)])]

/-- A search response body holding the given candidates in order. -/
def searchBodyOf (cs : List Candidate) : Json :=
  Json.obj [(kItems, Json.arr (cs.map mkItem))]

/-- Whether a candidate title matches the keyword heuristic. -/
def candHit (c : Candidate) : Bool := keywordHit (lowerStr c.title)

/-- The suggestion built from a candidate. -/
def candVideo (c : Candidate) : Video := ⟨Json.str c.title, ytBase ++ c.videoId⟩

/-- The per-entry normalization the claim attributes to `/extract_topics`:
keep the `topic` value of each entry that has a truthy one. -/
def topicOf : Json → Option Json
  | Json.obj kvs =>
    match jlookup kTopic kvs with
    | some tv => if truthy tv then some tv else none
    | none => none
  | _ => none

/-- Whether a JSON value is a non-empty string (the shape C10 asserts for
every returned topic). -/
def isNonemptyString : Json → Bool
  | Json.str s => !s.isEmpty
  | _ => false

/-- The well-formed Gemini response envelope whose first part carries the
given text (the shape `call_gemini_api` expects on success). -/
def geminiEnvelope (ts : List Char) : Json :=
  Json.obj [(kCandidates, Json.arr [Json.obj [(kContent,
    Json.obj [(kParts, Json.arr [Json.obj [(kText, Json.str ts)]])])]])]


/-- The fuel of `pyRepGo` does not matter once it bounds the input length. -/
theorem pyRepGo_congr (pat repl : List Char) :
    ∀ f₁ f₂ s, s.length ≤ f₁ → s.length ≤ f₂ →
      pyRepGo pat repl f₁ s = pyRepGo pat repl f₂ s := by
  intro f₁
  induction f₁ with
  | zero =>
    intro f₂ s h₁ h₂
    have hs : s = [] := List.eq_nil_of_length_eq_zero (Nat.le_zero.mp h₁)
    subst hs
    cases f₂ <;> rfl
  | succ f ih =>
    intro f₂ s h₁ h₂
    cases s with
    | nil => cases f₂ <;> rfl
    | cons c rest =>
      cases f₂ with
      | zero => simp at h₂
      | succ g =>
        simp only [pyRepGo]
        by_cases hc : (!pat.isEmpty && List.isPrefixOf pat (c :: rest)) = true
        · rw [if_pos hc, if_pos hc]
          have hplen : 1 ≤ pat.length := by
            cases pat with
            | nil => simp at hc
            | cons p pt => simp
          have hdl : (List.drop pat.length (c :: rest)).length ≤ f := by
            rw [List.length_drop]
            simp only [List.length_cons] at h₁ ⊢
            omega
          have hdg : (List.drop pat.length (c :: rest)).length ≤ g := by
            rw [List.length_drop]
            simp only [List.length_cons] at h₂ ⊢
            omega
          rw [ih g _ hdl hdg]
        · rw [if_neg hc, if_neg hc]
          have hl : rest.length ≤ f := by simpa using h₁
          have hg : rest.length ≤ g := by simpa using h₂
          rw [ih g rest hl hg]

/-- Unfolding equation of `pyReplace` on a nonempty input. -/
theorem pyReplace_cons (pat repl : List Char) (c : Char) (rest : List Char) :
    pyReplace pat repl (c :: rest) =
      if !pat.isEmpty && List.isPrefixOf pat (c :: rest) then
        repl ++ pyReplace pat repl (List.drop pat.length (c :: rest))
      else c :: pyReplace pat repl rest := by
  show pyRepGo pat repl (rest.length + 1) (c :: rest) = _
  simp only [pyRepGo]
  by_cases hc : (!pat.isEmpty && List.isPrefixOf pat (c :: rest)) = true
  · rw [if_pos hc, if_pos hc]
    have hplen : 1 ≤ pat.length := by
      cases pat with
      | nil => simp at hc
      | cons p pt => simp
    have hdl : (List.drop pat.length (c :: rest)).length ≤ rest.length := by
      rw [List.length_drop]
      simp only [List.length_cons]
      omega
    rw [pyRepGo_congr pat repl rest.length _ _ hdl (le_refl _)]
    rfl
  · rw [if_neg hc, if_neg hc]
    rfl

/-- A pattern that occurs nowhere is never replaced. -/
theorem pyReplace_not_contains (pat repl : List Char) :
    ∀ s, containsSeq pat s = false → pyReplace pat repl s = s := by
  intro s
  induction s with
  | nil => intro _; rfl
  | cons c rest ih =>
    intro h
    simp only [containsSeq, Bool.or_eq_false_iff] at h
    rw [pyReplace_cons, if_neg (by simp [h.1]), ih h.2]

/-- Replacement removes a leading occurrence of the pattern and continues
after it. -/
theorem pyReplace_cons_pat (pat repl s : List Char) (hp : pat ≠ []) :
    pyReplace pat repl (pat ++ s) = repl ++ pyReplace pat repl s := by
  cases pat with
  | nil => exact absurd rfl hp
  | cons p pt =>
    rw [List.cons_append, pyReplace_cons]
    have hpre : List.isPrefixOf (p :: pt) (p :: (pt ++ s)) = true := by
      rw [List.isPrefixOf_iff_prefix, ← List.cons_append]
      exact List.prefix_append _ _
    rw [if_pos (by simp [hpre])]
    rw [show p :: (pt ++ s) = (p :: pt) ++ s from rfl, List.drop_left]

/-- Removal of a trailing occurrence: when the pattern occurs nowhere in
`s` and cannot straddle the junction (hypothesis `hnc`), replacing it in
`s ++ pat` by nothing leaves exactly `s`. -/
theorem pyReplace_append_pat (pat : List Char) (hp : pat ≠ [])
    (hnc : ∀ t : List Char, t ≠ [] →
      List.isPrefixOf pat (t ++ pat) = true → List.isPrefixOf pat t = true) :
    ∀ s, containsSeq pat s = false → pyReplace pat [] (s ++ pat) = s := by
  intro s
  induction s with
  | nil =>
    intro _
    rw [List.nil_append]
    have h := pyReplace_cons_pat pat [] [] hp
    rw [List.append_nil] at h
    rw [h]
    rfl
  | cons c rest ih =>
    intro h
    simp only [containsSeq, Bool.or_eq_false_iff] at h
    rw [List.cons_append, pyReplace_cons]
    have hcond : List.isPrefixOf pat (c :: (rest ++ pat)) = false := by
      cases hb : List.isPrefixOf pat (c :: (rest ++ pat)) with
      | false => rfl
      | true =>
        have : List.isPrefixOf pat ((c :: rest) ++ pat) = true := by
          rw [List.cons_append]; exact hb
        have := hnc (c :: rest) (List.cons_ne_nil c rest) this
        rw [this] at h
        exact absurd h.1 (by simp)
    rw [if_neg (by simp [hcond]), ih h.2]

/-- The closing fence `"\n```"` cannot straddle the junction with a copy of
itself: if it prefixes `t ++ "\n```"` it already prefixes `t`. -/
theorem fenceClose_noCross : ∀ t : List Char, t ≠ [] →
    List.isPrefixOf fenceClose (t ++ fenceClose) = true →
    List.isPrefixOf fenceClose t = true := by
  intro t ht hpre
  rw [List.isPrefixOf_iff_prefix] at hpre ⊢
  have h₂ : t <+: t ++ fenceClose := List.prefix_append t fenceClose
  by_cases hlen : 4 ≤ t.length
  · exact List.prefix_of_prefix_length_le hpre h₂ (by simp [fenceClose]; omega)
  · exfalso
    have htp : t <+: fenceClose :=
      List.prefix_of_prefix_length_le h₂ hpre (by simp [fenceClose]; omega)
    have hte : t = fenceClose.take t.length := List.prefix_iff_eq_take.mp htp
    have hpos : 1 ≤ t.length := List.length_pos.mpr ht
    have hk : t.length = 1 ∨ t.length = 2 ∨ t.length = 3 := by omega
    rw [List.isPrefixOf_iff_prefix.symm] at hpre
    rcases hk with hk | hk | hk <;> rw [hk] at hte <;> rw [hte] at hpre <;>
      exact absurd hpre (by decide)

/-- Appending the closing fence to a payload that neither contains the
opening marker nor ends in the bare tag creates no occurrence of the
opening marker. -/
theorem fenceOpen_append_close : ∀ p : List Char,
    containsSeq fenceOpen p = false →
    List.isSuffixOf jsonTag p = false →
    containsSeq fenceOpen (p ++ fenceClose) = false := by
  intro p
  induction p with
  | nil => intro _ _; decide
  | cons c rest ih =>
    intro h₁ h₂
    simp only [containsSeq, Bool.or_eq_false_iff] at h₁
    rw [List.cons_append]
    simp only [containsSeq, Bool.or_eq_false_iff]
    constructor
    · cases hb : List.isPrefixOf fenceOpen (c :: (rest ++ fenceClose)) with
      | false => rfl
      | true =>
        exfalso
        have hP : fenceOpen <+: (c :: rest) ++ fenceClose := by
          rw [← List.isPrefixOf_iff_prefix, List.cons_append]
          exact hb
        have h₂p : (c :: rest) <+: (c :: rest) ++ fenceClose :=
          List.prefix_append _ _
        have h8 : fenceOpen.length = 8 := by decide
        by_cases hlen : 8 ≤ (c :: rest).length
        · have : fenceOpen <+: c :: rest :=
            List.prefix_of_prefix_length_le hP h₂p (by rw [h8]; exact hlen)
          rw [← List.isPrefixOf_iff_prefix] at this
          rw [this] at h₁
          exact absurd h₁.1 (by simp)
        · have htp : (c :: rest) <+: fenceOpen :=
            List.prefix_of_prefix_length_le h₂p hP (by rw [h8]; omega)
          have hte : c :: rest = fenceOpen.take (c :: rest).length :=
            List.prefix_iff_eq_take.mp htp
          have hpos : 1 ≤ (c :: rest).length := by simp
          have hk : (c :: rest).length = 1 ∨ (c :: rest).length = 2 ∨
              (c :: rest).length = 3 ∨ (c :: rest).length = 4 ∨
              (c :: rest).length = 5 ∨ (c :: rest).length = 6 ∨
              (c :: rest).length = 7 := by omega
          rw [← List.isPrefixOf_iff_prefix] at hP
          rcases hk with hk | hk | hk | hk | hk | hk | hk <;> rw [hk] at hte <;>
            rw [hte] at hP h₂ <;> revert hP h₂ <;> decide
    · apply ih h₁.2
      cases hs : List.isSuffixOf jsonTag rest with
      | false => rfl
      | true =>
        exfalso
        have : List.isSuffixOf jsonTag (c :: rest) = true := by
          rw [List.isSuffixOf_iff_suffix] at hs ⊢
          exact hs.trans (List.suffix_cons c rest)
        rw [this] at h₂
        exact absurd h₂ (by simp)

/-- Fence stripping of a fenced payload agrees with fence stripping of the
bare payload, whenever the payload does not itself contain fence markers
(true of every JSON text). -/
theorem cleanGemini_fenced (p : List Char)
    (h₁ : containsSeq fenceOpen p = false)
    (h₂ : containsSeq fenceClose p = false)
    (h₃ : List.isSuffixOf jsonTag p = false) :
    cleanGemini (fenceOpen ++ p ++ fenceClose) = cleanGemini p := by
  unfold cleanGemini
  have e₁ : pyReplace fenceOpen [] (fenceOpen ++ p ++ fenceClose) = p ++ fenceClose := by
    rw [List.append_assoc, pyReplace_cons_pat fenceOpen [] _ (by decide)]
    rw [pyReplace_not_contains _ _ _ (fenceOpen_append_close p h₁ h₃)]
    rfl
  have e₂ : pyReplace fenceClose [] (p ++ fenceClose) = p :=
    pyReplace_append_pat fenceClose (by decide) fenceClose_noCross p h₂
  rw [e₁, e₂, pyReplace_not_contains _ _ _ h₁, pyReplace_not_contains _ _ _ h₂]

/-- Digit characters are plain: not whitespace, not a newline, not `n`. -/
theorem digitChar_facts :
    ∀ k, k < 10 → pySpace (digitChar k) = false ∧ digitChar k ≠ '\n' ∧ digitChar k ≠ 'n' := by
  decide

/-- Hexadecimal digit characters are never a newline. -/
theorem hexChar_facts : ∀ k, k < 16 → hexChar k ≠ '\n' := by decide

/-- Every character of a decimal rendering is a digit-like plain character. -/
theorem natChars_facts (n : Nat) :
    ∀ c ∈ natChars n, pySpace c = false ∧ c ≠ '\n' ∧ c ≠ 'n' := by
  induction n using Nat.strong_induction_on with
  | _ n ih =>
    intro c hc
    rw [natChars] at hc
    by_cases h : n < 10
    · rw [dif_pos h] at hc
      simp only [List.mem_singleton] at hc
      subst hc
      exact digitChar_facts n h
    · rw [dif_neg h] at hc
      rw [List.mem_append, List.mem_singleton] at hc
      rcases hc with hc | rfl
      · exact ih (n / 10) (Nat.div_lt_self (by omega) (by omega)) c hc
      · exact digitChar_facts (n % 10) (Nat.mod_lt n (by omega))

/-- A decimal rendering is never empty. -/
theorem natChars_ne_nil (n : Nat) : natChars n ≠ [] := by
  rw [natChars]
  by_cases h : n < 10
  · rw [dif_pos h]; simp
  · rw [dif_neg h]; simp

/-- Escaped characters never contain a literal newline. -/
theorem escChar_no_nl (c : Char) : ∀ d ∈ escChar c, d ≠ '\n' := by
  intro d hd
  unfold escChar at hd
  split_ifs at hd with h₁ h₂ h₃ h₄ h₅ h₆
  · simp only [List.mem_cons, List.mem_singleton, List.not_mem_nil, or_false] at hd
    rcases hd with rfl | rfl <;> decide
  · simp only [List.mem_cons, List.mem_singleton, List.not_mem_nil, or_false] at hd
    rcases hd with rfl | rfl <;> decide
  · simp only [List.mem_cons, List.mem_singleton, List.not_mem_nil, or_false] at hd
    rcases hd with rfl | rfl <;> decide
  · simp only [List.mem_cons, List.mem_singleton, List.not_mem_nil, or_false] at hd
    rcases hd with rfl | rfl <;> decide
  · simp only [List.mem_cons, List.mem_singleton, List.not_mem_nil, or_false] at hd
    rcases hd with rfl | rfl <;> decide
  · simp only [List.mem_cons, List.mem_singleton, List.not_mem_nil, or_false] at hd
    rcases hd with rfl | rfl | rfl | rfl | rfl | rfl
    · decide
    · decide
    · decide
    · decide
    · exact (digitChar_facts (c.toNat / 16) (by omega)).2.1
    · exact hexChar_facts (c.toNat % 16) (Nat.mod_lt _ (by omega))
  · simp only [List.mem_singleton] at hd
    subst hd
    exact h₃

/-- Escaped string contents never contain a literal newline. -/
theorem escStr_no_nl (s : List Char) : ∀ d ∈ escStr s, d ≠ '\n' := by
  induction s with
  | nil => intro d hd; simp [escStr] at hd
  | cons c rest ih =>
    intro d hd
    simp only [escStr, List.mem_append] at hd
    rcases hd with hd | hd
    · exact escChar_no_nl c d hd
    · exact ih d hd

/-- Joint induction: no serialized JSON text contains a literal newline. -/
theorem serialize_no_nl_aux : ∀ n : Nat,
    (∀ v : Json, sizeOf v ≤ n → ∀ c ∈ serialize v, c ≠ '\n') ∧
    (∀ xs : List Json, sizeOf xs ≤ n → ∀ c ∈ serializeItems xs, c ≠ '\n') ∧
    (∀ kvs : List (List Char × Json), sizeOf kvs ≤ n → ∀ c ∈ serializeFields kvs, c ≠ '\n') := by
  intro n
  induction n using Nat.strong_induction_on with
  | _ n ih =>
    refine ⟨?_, ?_, ?_⟩
    · intro v hv c hc
      cases v with
      | null =>
        simp only [serialize] at hc
        revert c hc
        decide
      | bool b =>
        cases b <;> simp only [serialize] at hc <;> revert c hc <;> decide
      | num i =>
        simp only [serialize] at hc
        unfold intChars at hc
        split at hc
        · simp only [List.mem_cons] at hc
          rcases hc with rfl | hc
          · decide
          · exact (natChars_facts _ c hc).2.1
        · exact (natChars_facts _ c hc).2.1
      | str s =>
        simp only [serialize, List.mem_cons, List.mem_append, List.mem_singleton,
          List.not_mem_nil, or_false] at hc
        rcases hc with rfl | hc | rfl
        · decide
        · exact escStr_no_nl s c hc
        · decide
      | arr xs =>
        simp only [serialize, List.mem_cons, List.mem_append, List.mem_singleton,
          List.not_mem_nil, or_false] at hc
        rcases hc with rfl | hc | rfl
        · decide
        · have hxs : sizeOf xs < n := by
            have h := hv
            simp only [Json.arr.sizeOf_spec] at h
            omega
          exact (ih (sizeOf xs) hxs).2.1 xs (le_refl _) c hc
        · decide
      | obj kvs =>
        simp only [serialize, List.mem_cons, List.mem_append, List.mem_singleton,
          List.not_mem_nil, or_false] at hc
        rcases hc with rfl | hc | rfl
        · decide
        · have hkvs : sizeOf kvs < n := by
            have h := hv
            simp only [Json.obj.sizeOf_spec] at h
            omega
          exact (ih (sizeOf kvs) hkvs).2.2 kvs (le_refl _) c hc
        · decide
    · intro xs hxs c hc
      match xs with
      | [] => simp [serializeItems] at hc
      | [x] =>
        simp only [serializeItems] at hc
        have hx : sizeOf x < n := by
          have h := hxs
          simp only [List.cons.sizeOf_spec, List.nil.sizeOf_spec] at h
          omega
        exact (ih (sizeOf x) hx).1 x (le_refl _) c hc
      | x :: y :: rest =>
        simp only [serializeItems, List.mem_append, List.mem_cons,
          List.not_mem_nil, or_false] at hc
        rcases hc with hc | rfl | hc
        · have hx : sizeOf x < n := by
            have h := hxs
            simp only [List.cons.sizeOf_spec] at h
            omega
          exact (ih (sizeOf x) hx).1 x (le_refl _) c hc
        · decide
        · have hyr : sizeOf (y :: rest) < n := by
            have h := hxs
            simp only [List.cons.sizeOf_spec] at h ⊢
            omega
          exact (ih (sizeOf (y :: rest)) hyr).2.1 (y :: rest) (le_refl _) c hc
    · intro kvs hkvs c hc
      match kvs with
      | [] => simp [serializeFields] at hc
      | [(k, v)] =>
        simp only [serializeFields, List.mem_cons, List.mem_append,
          List.not_mem_nil, or_false] at hc
        rcases hc with rfl | hc | rfl | rfl | hc
        · decide
        · exact escStr_no_nl k c hc
        · decide
        · decide
        · have hv : sizeOf v < n := by
            have h := hkvs
            simp only [List.cons.sizeOf_spec, List.nil.sizeOf_spec, Prod.mk.sizeOf_spec] at h
            omega
          exact (ih (sizeOf v) hv).1 v (le_refl _) c hc
      | (k, v) :: kv :: rest =>
        simp only [serializeFields, List.mem_append, List.mem_cons,
          List.not_mem_nil, or_false] at hc
        rcases hc with (rfl | hc | rfl | rfl | hc) | rfl | hc
        · decide
        · exact escStr_no_nl k c hc
        · decide
        · decide
        · have hv : sizeOf v < n := by
            have h := hkvs
            simp only [List.cons.sizeOf_spec, Prod.mk.sizeOf_spec] at h
            omega
          exact (ih (sizeOf v) hv).1 v (le_refl _) c hc
        · decide
        · have hr : sizeOf (kv :: rest) < n := by
            have h := hkvs
            simp only [List.cons.sizeOf_spec, Prod.mk.sizeOf_spec] at h ⊢
            omega
          exact (ih (sizeOf (kv :: rest)) hr).2.2 (kv :: rest) (le_refl _) c hc

/-- No serialized JSON text contains a literal newline. -/
theorem serialize_no_nl (v : Json) : ∀ c ∈ serialize v, c ≠ '\n' :=
  (serialize_no_nl_aux (sizeOf v)).1 v (le_refl _)

/-- Head membership helper. -/
theorem head?_mem_list (l : List Char) (a : Char) (h : l.head? = some a) : a ∈ l := by
  cases l with
  | nil => simp at h
  | cons b rest =>
    simp only [List.head?_cons, Option.some.injEq] at h
    subst h
    exact List.mem_cons_self b rest

/-- The first character of serialized JSON is never whitespace. -/
theorem serialize_head_plain (v : Json) :
    ∀ c, (serialize v).head? = some c → pySpace c = false := by
  intro c hc
  cases v with
  | null =>
    simp only [serialize, List.head?_cons, Option.some.injEq] at hc
    subst hc; decide
  | bool b =>
    cases b <;> simp only [serialize, List.head?_cons, Option.some.injEq] at hc <;>
      subst hc <;> decide
  | num i =>
    simp only [serialize] at hc
    unfold intChars at hc
    split at hc
    · simp only [List.head?_cons, Option.some.injEq] at hc
      subst hc; decide
    · exact (natChars_facts _ c (head?_mem_list _ c hc)).1
  | str s =>
    simp only [serialize, List.head?_cons, Option.some.injEq] at hc
    subst hc; decide
  | arr xs =>
    simp only [serialize, List.head?_cons, Option.some.injEq] at hc
    subst hc; decide
  | obj kvs =>
    simp only [serialize, List.head?_cons, Option.some.injEq] at hc
    subst hc; decide

/-- Last-element membership helper. -/
theorem getLast?_mem_list (l : List Char) (a : Char) (h : l.getLast? = some a) : a ∈ l := by
  obtain ⟨hne, heq⟩ := List.mem_getLast?_eq_getLast (Option.mem_def.mpr h)
  rw [heq]
  exact List.getLast_mem hne

/-- The last character of serialized JSON is never whitespace and never the
letter `n` (so serialized JSON never ends in the bare tag ```` ```json ````). -/
theorem serialize_getLast_plain (v : Json) :
    ∀ c, (serialize v).getLast? = some c → pySpace c = false ∧ c ≠ 'n' := by
  intro c hc
  cases v with
  | null =>
    simp only [serialize] at hc
    rw [show (['n', 'u', 'l', 'l'] : List Char).getLast? = some 'l' from rfl] at hc
    simp only [Option.some.injEq] at hc
    subst hc; exact ⟨by decide, by decide⟩
  | bool b =>
    cases b <;> simp only [serialize] at hc
    · rw [show (['f', 'a', 'l', 's', 'e'] : List Char).getLast? = some 'e' from rfl] at hc
      simp only [Option.some.injEq] at hc
      subst hc; exact ⟨by decide, by decide⟩
    · rw [show (['t', 'r', 'u', 'e'] : List Char).getLast? = some 'e' from rfl] at hc
      simp only [Option.some.injEq] at hc
      subst hc; exact ⟨by decide, by decide⟩
  | num i =>
    simp only [serialize] at hc
    unfold intChars at hc
    split at hc
    · rw [show ('-' :: natChars i.natAbs) = ['-'] ++ natChars i.natAbs from rfl,
        List.getLast?_append_of_ne_nil _ (natChars_ne_nil _)] at hc
      have h := natChars_facts i.natAbs c (getLast?_mem_list _ c hc)
      exact ⟨h.1, h.2.2⟩
    · have h := natChars_facts i.toNat c (getLast?_mem_list _ c hc)
      exact ⟨h.1, h.2.2⟩
  | str s =>
    simp only [serialize] at hc
    rw [show ('"' :: (escStr s ++ ['"'])) = ('"' :: escStr s) ++ ['"'] from rfl,
      List.getLast?_concat] at hc
    simp only [Option.some.injEq] at hc
    subst hc; exact ⟨by decide, by decide⟩
  | arr xs =>
    simp only [serialize] at hc
    rw [show ('[' :: (serializeItems xs ++ [']'])) = ('[' :: serializeItems xs) ++ [']'] from rfl,
      List.getLast?_concat] at hc
    simp only [Option.some.injEq] at hc
    subst hc; exact ⟨by decide, by decide⟩
  | obj kvs =>
    simp only [serialize] at hc
    rw [show (Char.ofNat 123 :: (serializeFields kvs ++ [Char.ofNat 125])) =
        (Char.ofNat 123 :: serializeFields kvs) ++ [Char.ofNat 125] from rfl,
      List.getLast?_concat] at hc
    simp only [Option.some.injEq] at hc
    subst hc; exact ⟨by decide, by decide⟩

/-- Stripping does nothing when the ends are not whitespace. -/
theorem pyStrip_eq_self (l : List Char)
    (h₁ : ∀ c, l.head? = some c → pySpace c = false)
    (h₂ : ∀ c, l.getLast? = some c → pySpace c = false) :
    pyStrip l = l := by
  unfold pyStrip
  cases l with
  | nil => rfl
  | cons a rest =>
    rw [List.dropWhile_cons, if_neg (by simp [h₁ a rfl])]
    cases hr : (a :: rest).reverse with
    | nil => exact absurd hr (by simp)
    | cons b m =>
      have hb : pySpace b = false := by
        apply h₂
        rw [← List.head?_reverse, hr]
        rfl
      rw [List.dropWhile_cons, if_neg (by simp [hb]), ← hr, List.reverse_reverse]

/-- A substring occurrence only uses characters of the searched string. -/
theorem containsSeq_subset (pat : List Char) :
    ∀ s, containsSeq pat s = true → ∀ c ∈ pat, c ∈ s := by
  intro s
  induction s with
  | nil =>
    intro h c hc
    simp only [containsSeq, List.isEmpty_iff] at h
    subst h
    simp at hc
  | cons a rest ih =>
    intro h c hc
    simp only [containsSeq, Bool.or_eq_true] at h
    cases h with
    | inl hp =>
      rw [List.isPrefixOf_iff_prefix] at hp
      exact hp.subset hc
    | inr hr => exact List.mem_cons_of_mem a (ih hr c hc)

/-- A pattern holding a newline cannot occur in a newline-free string. -/
theorem containsSeq_false_of_no_nl (pat s : List Char) (hpat : '\n' ∈ pat)
    (hs : ∀ c ∈ s, c ≠ '\n') : containsSeq pat s = false := by
  cases h : containsSeq pat s with
  | false => rfl
  | true => exact absurd rfl (hs '\n' (containsSeq_subset pat s h '\n' hpat))

/-- Serialized JSON contains neither fence marker and does not end in the
bare ```` ```json ```` tag. -/
theorem serialize_no_markers (v : Json) :
    containsSeq fenceOpen (serialize v) = false ∧
    containsSeq fenceClose (serialize v) = false ∧
    List.isSuffixOf jsonTag (serialize v) = false := by
  refine ⟨containsSeq_false_of_no_nl _ _ (by decide) (serialize_no_nl v),
          containsSeq_false_of_no_nl _ _ (by decide) (serialize_no_nl v), ?_⟩
  cases h : List.isSuffixOf jsonTag (serialize v) with
  | false => rfl
  | true =>
    exfalso
    rw [List.isSuffixOf_iff_suffix] at h
    obtain ⟨pre, hpre⟩ := h
    have hlast : (serialize v).getLast? = some 'n' := by
      rw [← hpre, List.getLast?_append_of_ne_nil pre (by decide)]
      decide
    exact absurd rfl ((serialize_getLast_plain v 'n' hlast).2)

/-- Fence stripping leaves serialized JSON untouched. -/
theorem cleanGemini_serialize (v : Json) : cleanGemini (serialize v) = serialize v := by
  obtain ⟨h₁, h₂, _⟩ := serialize_no_markers v
  unfold cleanGemini
  rw [pyReplace_not_contains _ _ _ h₁, pyReplace_not_contains _ _ _ h₂]
  exact pyStrip_eq_self _ (serialize_head_plain v)
    (fun c hc => (serialize_getLast_plain v c hc).1)

/-- C6: for every structured completion payload, parsing the fenced text
produced by wrapping it in markdown code fences goes through the same
cleaned string as parsing the bare payload, so any JSON parser yields the
same value for both.  The first part covers every payload text free of
embedded fence markers (as every JSON text, pretty-printed or not, is);
the second instantiates it for the serialized text of every structured
value. -/
theorem fenced_payload_round_trip :
    (∀ p : List Char, containsSeq fenceOpen p = false → containsSeq fenceClose p = false →
      List.isSuffixOf jsonTag p = false →
      cleanGemini (fenceOpen ++ p ++ fenceClose) = cleanGemini p) ∧
    (∀ v : Json,
      cleanGemini (fenceOpen ++ serialize v ++ fenceClose) = cleanGemini (serialize v)) := by
  refine ⟨cleanGemini_fenced, ?_⟩
  intro v
  obtain ⟨h₁, h₂, h₃⟩ := serialize_no_markers v
  exact cleanGemini_fenced _ h₁ h₂ h₃

/-- Witness for `fenced_payload_round_trip` at the concrete payload
`[1, 2]`. -/
theorem fenced_payload_round_trip_witness :
    containsSeq fenceOpen (("[1, 2]").data) = false ∧
    containsSeq fenceClose (("[1, 2]").data) = false ∧
    List.isSuffixOf jsonTag (("[1, 2]").data) = false ∧
    cleanGemini (fenceOpen ++ ("[1, 2]").data ++ fenceClose) = cleanGemini (("[1, 2]").data) :=
  ⟨by decide, by decide, by decide,
    fenced_payload_round_trip.1 (("[1, 2]").data) (by decide) (by decide) (by decide)⟩

/-- C9 counterexample: a structured value whose string data contains the
closing fence marker.  Its JSON text escapes the newline, the cleaning
step leaves that text completely unchanged, and therefore parsing it
cannot differ from the original payload — contradicting the claimed
consequence. -/
theorem fence_marker_in_string_data_counterexample :
    containsSeq fenceClose (("\n```").data) = true ∧
    cleanGemini (serialize (Json.str (("\n```").data))) =
      serialize (Json.str (("\n```").data)) :=
  ⟨by decide, cleanGemini_serialize (Json.str (("\n```").data))⟩

/-- C9 amended: the fence-stripping step does remove every occurrence of
the two marker substrings anywhere in the completion text (first two
conjuncts show interior occurrences being removed, including inside a
quoted region of a raw text), but JSON serialization escapes newlines, so
the serialized text of any structured value — marker characters in its
string data or not — passes through the cleaning step unchanged and parses
to the same value. -/
theorem fence_markers_removed_anywhere :
    cleanGemini (fenceOpen ++ ("[1]").data ++ fenceClose ++ fenceOpen ++
      ("[2]").data ++ fenceClose) = ("[1][2]").data ∧
    cleanGemini ('"' :: (("x\n```y").data ++ ['"'])) = '"' :: (("xy").data ++ ['"']) ∧
    (∀ v : Json, cleanGemini (serialize v) = serialize v) :=
  ⟨by decide, by decide, cleanGemini_serialize⟩

/-- The topic comprehension equals a pure filterMap when every entry is an
object (no entry raises). -/
theorem topicsComp_filterMap :
    ∀ items : List Json, (∀ j ∈ items, ∃ kvs, j = Json.obj kvs) →
      topicsComp items = Except.ok (items.filterMap topicOf) := by
  intro items
  induction items with
  | nil => intro _; rfl
  | cons item rest ih =>
    intro h
    obtain ⟨kvs, rfl⟩ := h item (List.mem_cons_self _ _)
    have hr := ih (fun j hj => h j (List.mem_cons_of_mem _ hj))
    simp only [topicsComp, topicOf, List.filterMap_cons, hr]
    cases hl : jlookup kTopic kvs with
    | none => simp [hl]
    | some tv =>
      cases htv : truthy tv with
      | false => simp [hl, htv]
      | true => simp [hl, htv]

/-- On a well-formed array result, `/extract_topics` answers 200 with the
entries normalized by `topicOf`. -/
theorem extract_topics_filterMap (body : List (List Char × Json))
    (parse : List Char → Option Json) (o : HttpOutcome) (items : List Json)
    (htr : truthy (reqField kSyllabus body) = true)
    (hc : call_gemini_api true parse o = Except.ok (some (Json.arr items)))
    (hobj : ∀ j ∈ items, ∃ kvs, j = Json.obj kvs) :
    extract_topics_route body parse o =
      (Except.ok ⟨200, Json.obj [(kTopics, Json.arr (items.filterMap topicOf))]⟩, ⟨1, 0⟩) := by
  simp only [extract_topics_route, htr, hc]
  cases items with
  | nil => simp [truthy]
  | cons it its => simp [truthy, topicsComp_filterMap _ hobj]

/-- A truthy upstream value is passed through unchanged by flashcards. -/
theorem generate_flashcards_passthrough (body : List (List Char × Json))
    (parse : List Char → Option Json) (o : HttpOutcome) (v : Json)
    (htr : truthy (reqField kTopic body) = true)
    (hc : call_gemini_api true parse o = Except.ok (some v)) (hv : truthy v = true) :
    generate_flashcards_route body parse o =
      (Except.ok ⟨200, Json.obj [(kFlashcards, v)]⟩, ⟨1, 0⟩) := by
  simp [generate_flashcards_route, htr, hc, hv]

/-- A truthy upstream value is passed through unchanged by questions. -/
theorem generate_questions_passthrough (body : List (List Char × Json))
    (parse : List Char → Option Json) (o : HttpOutcome) (v : Json)
    (htr : truthy (reqField kTopic body) = true)
    (hc : call_gemini_api true parse o = Except.ok (some v)) (hv : truthy v = true) :
    generate_questions_route body parse o =
      (Except.ok ⟨200, Json.obj [(kQuestions, v)]⟩, ⟨1, 0⟩) := by
  simp [generate_questions_route, htr, hc, hv]

/-- An absent upstream result degrades to an empty array for topics. -/
theorem extract_topics_empty (body : List (List Char × Json))
    (parse : List Char → Option Json) (o : HttpOutcome)
    (htr : truthy (reqField kSyllabus body) = true)
    (hc : call_gemini_api true parse o = Except.ok none) :
    extract_topics_route body parse o =
      (Except.ok ⟨200, Json.obj [(kTopics, Json.arr [])]⟩, ⟨1, 0⟩) := by
  simp [extract_topics_route, htr, hc]

/-- An absent upstream result degrades to an empty array for flashcards. -/
theorem generate_flashcards_empty (body : List (List Char × Json))
    (parse : List Char → Option Json) (o : HttpOutcome)
    (htr : truthy (reqField kTopic body) = true)
    (hc : call_gemini_api true parse o = Except.ok none) :
    generate_flashcards_route body parse o =
      (Except.ok ⟨200, Json.obj [(kFlashcards, Json.arr [])]⟩, ⟨1, 0⟩) := by
  simp [generate_flashcards_route, htr, hc]

/-- An absent upstream result degrades to an empty array for questions. -/
theorem generate_questions_empty (body : List (List Char × Json))
    (parse : List Char → Option Json) (o : HttpOutcome)
    (htr : truthy (reqField kTopic body) = true)
    (hc : call_gemini_api true parse o = Except.ok none) :
    generate_questions_route body parse o =
      (Except.ok ⟨200, Json.obj [(kQuestions, Json.arr [])]⟩, ⟨1, 0⟩) := by
  simp [generate_questions_route, htr, hc]

/-- C1 counterexample: `/generate_flashcards` returns an upstream entry
that has no `front`/`back` fields completely untouched — the claimed
per-entry filtering does not happen for flashcards (the same code shape
serves questions); only `/extract_topics` filters. -/
theorem array_normalization_counterexample :
    generate_flashcards_route [(kTopic, Json.str (("Biology").data))]
      (fun _ => some (Json.arr [Json.obj []]))
      (HttpOutcome.ok (geminiEnvelope (("x").data))) =
      (Except.ok ⟨200, Json.obj [(kFlashcards, Json.arr [Json.obj []])]⟩, ⟨1, 0⟩) := rfl

/-- C1 amended: `/extract_topics` filters entries down to their truthy
`topic` values; `/generate_flashcards` and `/generate_questions` return
the upstream array unchanged, with no per-entry filtering; and when the
upstream completion result is absent, all three return an empty array with
HTTP 200. -/
theorem array_normalization_amended :
    (∀ body parse o items, truthy (reqField kSyllabus body) = true →
      call_gemini_api true parse o = Except.ok (some (Json.arr items)) →
      (∀ j ∈ items, ∃ kvs, j = Json.obj kvs) →
      extract_topics_route body parse o =
        (Except.ok ⟨200, Json.obj [(kTopics, Json.arr (items.filterMap topicOf))]⟩, ⟨1, 0⟩)) ∧
    (∀ body parse o v, truthy (reqField kTopic body) = true →
      call_gemini_api true parse o = Except.ok (some v) → truthy v = true →
      generate_flashcards_route body parse o =
        (Except.ok ⟨200, Json.obj [(kFlashcards, v)]⟩, ⟨1, 0⟩)) ∧
    (∀ body parse o v, truthy (reqField kTopic body) = true →
      call_gemini_api true parse o = Except.ok (some v) → truthy v = true →
      generate_questions_route body parse o =
        (Except.ok ⟨200, Json.obj [(kQuestions, v)]⟩, ⟨1, 0⟩)) ∧
    (∀ body parse o, truthy (reqField kSyllabus body) = true →
      call_gemini_api true parse o = Except.ok none →
      extract_topics_route body parse o =
        (Except.ok ⟨200, Json.obj [(kTopics, Json.arr [])]⟩, ⟨1, 0⟩)) ∧
    (∀ body parse o, truthy (reqField kTopic body) = true →
      call_gemini_api true parse o = Except.ok none →
      generate_flashcards_route body parse o =
        (Except.ok ⟨200, Json.obj [(kFlashcards, Json.arr [])]⟩, ⟨1, 0⟩)) ∧
    (∀ body parse o, truthy (reqField kTopic body) = true →
      call_gemini_api true parse o = Except.ok none →
      generate_questions_route body parse o =
        (Except.ok ⟨200, Json.obj [(kQuestions, Json.arr [])]⟩, ⟨1, 0⟩)) :=
  ⟨extract_topics_filterMap, generate_flashcards_passthrough,
   generate_questions_passthrough, extract_topics_empty,
   generate_flashcards_empty, generate_questions_empty⟩

/-- Witness for `array_normalization_amended`: the spec example upstream
`[{topic: Graphs}, {}, {topic: Trees}]` normalizes to `[Graphs, Trees]`. -/
theorem array_normalization_amended_witness :
    extract_topics_route [(kSyllabus, Json.str (("s").data))]
      (fun _ => some (Json.arr [Json.obj [(kTopic, Json.str (("Graphs").data))],
        Json.obj [], Json.obj [(kTopic, Json.str (("Trees").data))]]))
      (HttpOutcome.ok (geminiEnvelope (("x").data))) =
      (Except.ok ⟨200, Json.obj [(kTopics, Json.arr
        [Json.str (("Graphs").data), Json.str (("Trees").data)])]⟩, ⟨1, 0⟩) :=
  array_normalization_amended.1
    [(kSyllabus, Json.str (("s").data))]
    (fun _ => some (Json.arr [Json.obj [(kTopic, Json.str (("Graphs").data))],
      Json.obj [], Json.obj [(kTopic, Json.str (("Trees").data))]]))
    (HttpOutcome.ok (geminiEnvelope (("x").data)))
    [Json.obj [(kTopic, Json.str (("Graphs").data))],
      Json.obj [], Json.obj [(kTopic, Json.str (("Trees").data))]]
    rfl rfl (by
      intro j hj
      simp only [List.mem_cons, List.not_mem_nil, or_false] at hj
      rcases hj with rfl | rfl | rfl
      · exact ⟨_, rfl⟩
      · exact ⟨_, rfl⟩
      · exact ⟨_, rfl⟩)

/-- C10 counterexample: an upstream entry whose `topic` field is a truthy
non-string (the number 5) survives the normalization, so the returned
topics array contains an element that is not a non-empty string. -/
theorem topics_nonempty_string_counterexample :
    extract_topics_route [(kSyllabus, Json.str (("s").data))]
      (fun _ => some (Json.arr [Json.obj [(kTopic, Json.num 5)]]))
      (HttpOutcome.ok (geminiEnvelope (("x").data))) =
      (Except.ok ⟨200, Json.obj [(kTopics, Json.arr [Json.num 5])]⟩, ⟨1, 0⟩) ∧
    isNonemptyString (Json.num 5) = false :=
  ⟨rfl, rfl⟩

/-- C10 amended: every element of the normalized topics array is truthy —
in particular never the empty string and never null, since entries whose
`topic` is missing or falsy are dropped alike — and whenever the upstream
`topic` values are strings, every returned element is a non-empty string;
the route returns exactly this normalized array. -/
theorem topics_entries_truthy_amended :
    (∀ items : List Json, ∀ t ∈ items.filterMap topicOf, truthy t = true) ∧
    (∀ items : List Json,
      (∀ kvs, Json.obj kvs ∈ items → ∀ tv, jlookup kTopic kvs = some tv →
        ∃ s, tv = Json.str s) →
      ∀ t ∈ items.filterMap topicOf, isNonemptyString t = true) ∧
    (∀ body parse o items, truthy (reqField kSyllabus body) = true →
      call_gemini_api true parse o = Except.ok (some (Json.arr items)) →
      (∀ j ∈ items, ∃ kvs, j = Json.obj kvs) →
      extract_topics_route body parse o =
        (Except.ok ⟨200, Json.obj [(kTopics, Json.arr (items.filterMap topicOf))]⟩,
          ⟨1, 0⟩)) := by
  have key : ∀ (items : List Json) (t : Json), t ∈ items.filterMap topicOf →
      ∃ kvs, Json.obj kvs ∈ items ∧ jlookup kTopic kvs = some t ∧ truthy t = true := by
    intro items t ht
    rw [List.mem_filterMap] at ht
    obtain ⟨j, hj, hjt⟩ := ht
    cases j with
    | obj kvs =>
      refine ⟨kvs, hj, ?_⟩
      cases hl : jlookup kTopic kvs with
      | none => simp [topicOf, hl] at hjt
      | some tv =>
        simp only [topicOf, hl] at hjt
        cases htv : truthy tv with
        | false => simp [htv] at hjt
        | true =>
          simp only [htv, if_true] at hjt
          simp only [Option.some.injEq] at hjt
          subst hjt
          exact ⟨rfl, htv⟩
    | null => simp [topicOf] at hjt
    | bool b => simp [topicOf] at hjt
    | num n => simp [topicOf] at hjt
    | str s => simp [topicOf] at hjt
    | arr xs => simp [topicOf] at hjt
  refine ⟨?_, ?_, extract_topics_filterMap⟩
  · intro items t ht
    obtain ⟨kvs, _, _, htv⟩ := key items t ht
    exact htv
  · intro items hstr t ht
    obtain ⟨kvs, hmem, hl, htv⟩ := key items t ht
    obtain ⟨s, rfl⟩ := hstr kvs hmem t hl
    simpa [isNonemptyString, truthy] using htv

/-- Witness for `topics_entries_truthy_amended` at a one-entry upstream. -/
theorem topics_entries_truthy_amended_witness :
    truthy (Json.str (("Trees").data)) = true :=
  topics_entries_truthy_amended.1 [Json.obj [(kTopic, Json.str (("Trees").data))]]
    (Json.str (("Trees").data)) (List.mem_cons_self _ _)

/-- The item-scanning loop on well-formed candidate items returns exactly
the first keyword match, and never raises. -/
theorem scanItems_map :
    ∀ cs : List Candidate, scanItems (cs.map mkItem) =
      Except.ok ((cs.find? candHit).map candVideo) := by
  intro cs
  induction cs with
  | nil => rfl
  | cons c rest ih =>
    have h1 : pyIndex (mkItem c) kId =
        Except.ok (Json.obj [(kVideoId, Json.str c.videoId)]) := rfl
    have h2 : pyIndex (Json.obj [(kVideoId, Json.str c.videoId)]) kVideoId =
        Except.ok (Json.str c.videoId) := rfl
    have h3 : pyIndex (mkItem c) kSnippet =
        Except.ok (Json.obj [(kTitle, Json.str c.title)]) := rfl
    have h4 : pyIndex (Json.obj [(kTitle, Json.str c.title)]) kTitle =
        Except.ok (Json.str c.title) := rfl
    simp only [List.map_cons, scanItems, h1, h2, h3, h4]
    cases hhit : candHit c with
    | true =>
      simp only [candHit] at hhit
      simp [List.find?, hhit, candHit, candVideo, pyStrOf]
    | false =>
      simp only [candHit] at hhit
      simp [List.find?, candHit, hhit, ih]

/-- The search call on a parsed response holding well-formed candidates
implements first-keyword-match-else-first-candidate selection. -/
theorem search_youtube_candidates :
    ∀ cs : List Candidate, cs ≠ [] →
      search_youtube_videos (HttpOutcome.ok (searchBodyOf cs)) =
        some (candVideo ((List.find? candHit cs).getD (cs.headD ⟨[], []⟩))) := by
  intro cs h
  cases cs with
  | nil => exact absurd rfl h
  | cons c rest =>
    have h1 : pyIndex (mkItem c) kId =
        Except.ok (Json.obj [(kVideoId, Json.str c.videoId)]) := rfl
    have h2 : pyIndex (Json.obj [(kVideoId, Json.str c.videoId)]) kVideoId =
        Except.ok (Json.str c.videoId) := rfl
    have h3 : pyIndex (mkItem c) kSnippet =
        Except.ok (Json.obj [(kTitle, Json.str c.title)]) := rfl
    have h4 : pyIndex (Json.obj [(kTitle, Json.str c.title)]) kTitle =
        Except.ok (Json.str c.title) := rfl
    have hitems : jlookup kItems [(kItems, Json.arr ((c :: rest).map mkItem))] =
        some (Json.arr ((c :: rest).map mkItem)) := rfl
    simp only [search_youtube_videos, searchBody, searchBodyOf, hitems,
      scanItems_map, truthy]
    cases hf : List.find? candHit (c :: rest) with
    | some d => simp [hf]
    | none => simp [hf, List.map_cons, h1, h2, h3, h4, candVideo, pyStrOf]

/-- C2: the selection heuristic returns the first candidate whose title
contains (case-insensitively) `lecture`, `tutorial` or `course`, and the
first candidate when none matches; on the three-candidate example of the
spec it selects `X Lecture Series`. -/
theorem video_selection_heuristic :
    (∀ cs : List Candidate, cs ≠ [] →
      search_youtube_videos (HttpOutcome.ok (searchBodyOf cs)) =
        some (candVideo ((List.find? candHit cs).getD (cs.headD ⟨[], []⟩)))) ∧
    search_youtube_videos (HttpOutcome.ok (searchBodyOf
      [⟨("id1").data, ("Intro to X").data⟩, ⟨("id2").data, ("X Lecture Series").data⟩,
        ⟨("id3").data, ("X Explained").data⟩])) =
      some ⟨Json.str (("X Lecture Series").data), ytBase ++ ("id2").data⟩ :=
  ⟨search_youtube_candidates, rfl⟩

/-- Witness for `video_selection_heuristic` at a one-candidate search
result. -/
theorem video_selection_heuristic_witness :
    search_youtube_videos (HttpOutcome.ok (searchBodyOf
      [⟨("a1").data, ("Graph Theory Tutorial").data⟩])) =
      some (candVideo ((List.find? candHit
        [(⟨("a1").data, ("Graph Theory Tutorial").data⟩ : Candidate)]).getD
        (List.headD [⟨("a1").data, ("Graph Theory Tutorial").data⟩] ⟨[], []⟩))) :=
  video_selection_heuristic.1 _ (by simp)

/-- Missing or empty syllabus text makes `/extract_title` answer 400. -/
theorem extract_title_400 (body : List (List Char × Json))
    (parse : List Char → Option Json) (o : HttpOutcome)
    (h : jlookup kSyllabus body = none ∨ jlookup kSyllabus body = some (Json.str [])) :
    extract_title_route body parse o =
      (Except.ok ⟨400, Json.obj [(kError, Json.str errSyllabus)]⟩, ⟨0, 0⟩) := by
  have hf : truthy (reqField kSyllabus body) = false := by
    rcases h with h | h <;> simp [reqField, h, truthy]
  simp [extract_title_route, hf]

/-- Missing or empty syllabus text makes `/extract_topics` answer 400. -/
theorem extract_topics_400 (body : List (List Char × Json))
    (parse : List Char → Option Json) (o : HttpOutcome)
    (h : jlookup kSyllabus body = none ∨ jlookup kSyllabus body = some (Json.str [])) :
    extract_topics_route body parse o =
      (Except.ok ⟨400, Json.obj [(kError, Json.str errSyllabus)]⟩, ⟨0, 0⟩) := by
  have hf : truthy (reqField kSyllabus body) = false := by
    rcases h with h | h <;> simp [reqField, h, truthy]
  simp [extract_topics_route, hf]

/-- Missing or empty topic makes `/suggest_video` answer 400. -/
theorem suggest_video_400 (body : List (List Char × Json))
    (parse : List Char → Option Json) (so go : HttpOutcome)
    (h : jlookup kTopic body = none ∨ jlookup kTopic body = some (Json.str [])) :
    suggest_video_route body parse so go =
      (Except.ok ⟨400, Json.obj [(kError, Json.str errTopic)]⟩, ⟨0, 0⟩) := by
  have hf : truthy (reqField kTopic body) = false := by
    rcases h with h | h <;> simp [reqField, h, truthy]
  simp [suggest_video_route, hf]

/-- Missing or empty topic makes `/generate_notes` answer 400. -/
theorem generate_notes_400 (body : List (List Char × Json))
    (parse : List Char → Option Json) (o : HttpOutcome)
    (h : jlookup kTopic body = none ∨ jlookup kTopic body = some (Json.str [])) :
    generate_notes_route body parse o =
      (Except.ok ⟨400, Json.obj [(kError, Json.str errTopic)]⟩, ⟨0, 0⟩) := by
  have hf : truthy (reqField kTopic body) = false := by
    rcases h with h | h <;> simp [reqField, h, truthy]
  simp [generate_notes_route, hf]

/-- Missing or empty topic makes `/generate_flashcards` answer 400. -/
theorem generate_flashcards_400 (body : List (List Char × Json))
    (parse : List Char → Option Json) (o : HttpOutcome)
    (h : jlookup kTopic body = none ∨ jlookup kTopic body = some (Json.str [])) :
    generate_flashcards_route body parse o =
      (Except.ok ⟨400, Json.obj [(kError, Json.str errTopic)]⟩, ⟨0, 0⟩) := by
  have hf : truthy (reqField kTopic body) = false := by
    rcases h with h | h <;> simp [reqField, h, truthy]
  simp [generate_flashcards_route, hf]

/-- Missing or empty topic makes `/generate_questions` answer 400. -/
theorem generate_questions_400 (body : List (List Char × Json))
    (parse : List Char → Option Json) (o : HttpOutcome)
    (h : jlookup kTopic body = none ∨ jlookup kTopic body = some (Json.str [])) :
    generate_questions_route body parse o =
      (Except.ok ⟨400, Json.obj [(kError, Json.str errTopic)]⟩, ⟨0, 0⟩) := by
  have hf : truthy (reqField kTopic body) = false := by
    rcases h with h | h <;> simp [reqField, h, truthy]
  simp [generate_questions_route, hf]

/-- With a non-empty input, `/extract_title` answers 200 whenever the
completion call returns (value or failure signal alike). -/
theorem extract_title_200 (body : List (List Char × Json))
    (parse : List Char → Option Json) (o : HttpOutcome) (r : Option Json)
    (htr : truthy (reqField kSyllabus body) = true)
    (hc : call_gemini_api false parse o = Except.ok r) :
    statusOf (extract_title_route body parse o) = some 200 := by
  simp [extract_title_route, htr, hc, statusOf]

/-- With a non-empty input, `/generate_notes` answers 200 whenever the
completion call returns. -/
theorem generate_notes_200 (body : List (List Char × Json))
    (parse : List Char → Option Json) (o : HttpOutcome) (r : Option Json)
    (htr : truthy (reqField kTopic body) = true)
    (hc : call_gemini_api false parse o = Except.ok r) :
    statusOf (generate_notes_route body parse o) = some 200 := by
  cases r with
  | none => simp [generate_notes_route, htr, hc, statusOf]
  | some v => cases hv : truthy v <;> simp [generate_notes_route, htr, hc, hv, statusOf]

/-- With a non-empty input, `/generate_flashcards` answers 200 whenever
the completion call returns. -/
theorem generate_flashcards_200 (body : List (List Char × Json))
    (parse : List Char → Option Json) (o : HttpOutcome) (r : Option Json)
    (htr : truthy (reqField kTopic body) = true)
    (hc : call_gemini_api true parse o = Except.ok r) :
    statusOf (generate_flashcards_route body parse o) = some 200 := by
  cases r with
  | none => simp [generate_flashcards_route, htr, hc, statusOf]
  | some v => cases hv : truthy v <;> simp [generate_flashcards_route, htr, hc, hv, statusOf]

/-- With a non-empty input, `/generate_questions` answers 200 whenever the
completion call returns. -/
theorem generate_questions_200 (body : List (List Char × Json))
    (parse : List Char → Option Json) (o : HttpOutcome) (r : Option Json)
    (htr : truthy (reqField kTopic body) = true)
    (hc : call_gemini_api true parse o = Except.ok r) :
    statusOf (generate_questions_route body parse o) = some 200 := by
  cases r with
  | none => simp [generate_questions_route, htr, hc, statusOf]
  | some v => cases hv : truthy v <;> simp [generate_questions_route, htr, hc, hv, statusOf]

/-- With a non-empty input and an upstream failure signal,
`/extract_topics` answers 200. -/
theorem extract_topics_200_failure (body : List (List Char × Json))
    (parse : List Char → Option Json) (o : HttpOutcome)
    (htr : truthy (reqField kSyllabus body) = true)
    (hc : call_gemini_api true parse o = Except.ok none) :
    statusOf (extract_topics_route body parse o) = some 200 := by
  rw [extract_topics_empty body parse o htr hc]
  rfl

/-- With a non-empty topic and a found video, `/suggest_video` answers
200. -/
theorem suggest_video_200_found (body : List (List Char × Json))
    (parse : List Char → Option Json) (so go : HttpOutcome) (v : Video)
    (htr : truthy (reqField kTopic body) = true)
    (hs : search_youtube_videos so = some v) :
    statusOf (suggest_video_route body parse so go) = some 200 := by
  simp [suggest_video_route, htr, hs, statusOf]

/-- With a non-empty topic, a failed search and a failed fallback,
`/suggest_video` still answers 200. -/
theorem suggest_video_200_fallback (body : List (List Char × Json))
    (parse : List Char → Option Json) (so go : HttpOutcome)
    (htr : truthy (reqField kTopic body) = true)
    (hs : search_youtube_videos so = none)
    (hg : call_gemini_api true parse go = Except.ok none) :
    statusOf (suggest_video_route body parse so go) = some 200 := by
  simp [suggest_video_route, htr, hs, hg, statusOf]

/-- C3: every handler answers 400 with an `error` body and issues no
outbound call when its required field is missing or empty, and answers 200
with a non-empty field even when the upstream call yields only the failure
signal. -/
theorem input_validation_gate :
    (∀ body parse o,
      (jlookup kSyllabus body = none ∨ jlookup kSyllabus body = some (Json.str [])) →
      extract_title_route body parse o =
        (Except.ok ⟨400, Json.obj [(kError, Json.str errSyllabus)]⟩, ⟨0, 0⟩) ∧
      extract_topics_route body parse o =
        (Except.ok ⟨400, Json.obj [(kError, Json.str errSyllabus)]⟩, ⟨0, 0⟩)) ∧
    (∀ body parse o so go,
      (jlookup kTopic body = none ∨ jlookup kTopic body = some (Json.str [])) →
      suggest_video_route body parse so go =
        (Except.ok ⟨400, Json.obj [(kError, Json.str errTopic)]⟩, ⟨0, 0⟩) ∧
      generate_notes_route body parse o =
        (Except.ok ⟨400, Json.obj [(kError, Json.str errTopic)]⟩, ⟨0, 0⟩) ∧
      generate_flashcards_route body parse o =
        (Except.ok ⟨400, Json.obj [(kError, Json.str errTopic)]⟩, ⟨0, 0⟩) ∧
      generate_questions_route body parse o =
        (Except.ok ⟨400, Json.obj [(kError, Json.str errTopic)]⟩, ⟨0, 0⟩)) ∧
    (∀ body parse o r, truthy (reqField kSyllabus body) = true →
      call_gemini_api false parse o = Except.ok r →
      statusOf (extract_title_route body parse o) = some 200) ∧
    (∀ body parse o, truthy (reqField kSyllabus body) = true →
      call_gemini_api true parse o = Except.ok none →
      statusOf (extract_topics_route body parse o) = some 200) ∧
    (∀ body parse o r, truthy (reqField kTopic body) = true →
      call_gemini_api false parse o = Except.ok r →
      statusOf (generate_notes_route body parse o) = some 200) ∧
    (∀ body parse o r, truthy (reqField kTopic body) = true →
      call_gemini_api true parse o = Except.ok r →
      statusOf (generate_flashcards_route body parse o) = some 200 ∧
      statusOf (generate_questions_route body parse o) = some 200) ∧
    (∀ body parse so go, truthy (reqField kTopic body) = true →
      (∀ v, search_youtube_videos so = some v →
        statusOf (suggest_video_route body parse so go) = some 200) ∧
      (search_youtube_videos so = none →
        call_gemini_api true parse go = Except.ok none →
        statusOf (suggest_video_route body parse so go) = some 200)) :=
  ⟨fun body parse o h => ⟨extract_title_400 body parse o h, extract_topics_400 body parse o h⟩,
   fun body parse o so go h => ⟨suggest_video_400 body parse so go h,
     generate_notes_400 body parse o h, generate_flashcards_400 body parse o h,
     generate_questions_400 body parse o h⟩,
   extract_title_200, extract_topics_200_failure, generate_notes_200,
   fun body parse o r htr hc => ⟨generate_flashcards_200 body parse o r htr hc,
     generate_questions_200 body parse o r htr hc⟩,
   fun body parse so go htr =>
     ⟨fun v hv => suggest_video_200_found body parse so go v htr hv,
      fun hs hg => suggest_video_200_fallback body parse so go htr hs hg⟩⟩

/-- Witness for `input_validation_gate`: an empty request body gets 400
from `/extract_title` with no outbound call, and a present topic still
gets 200 from `/generate_notes` when the upstream call fails. -/
theorem input_validation_gate_witness :
    extract_title_route [] (fun _ => none) HttpOutcome.netErr =
      (Except.ok ⟨400, Json.obj [(kError, Json.str errSyllabus)]⟩, ⟨0, 0⟩) ∧
    statusOf (generate_notes_route [(kTopic, Json.str (("T").data))] (fun _ => none)
      HttpOutcome.netErr) = some 200 :=
  ⟨(input_validation_gate.1 [] (fun _ => none) HttpOutcome.netErr (Or.inl rfl)).1,
   input_validation_gate.2.2.2.2.1 [(kTopic, Json.str (("T").data))] (fun _ => none)
     HttpOutcome.netErr none rfl rfl⟩

/-- C4 counterexample: a response whose first part is missing its `text`
field passes the guard (candidates, content and parts are all present and
truthy) and then raises an uncaught KeyError at
`result["candidates"][0]["content"]["parts"][0]["text"]` — it does not
collapse to the failure signal. -/
theorem gemini_missing_text_counterexample :
    call_gemini_api false (fun _ => none) (HttpOutcome.ok (Json.obj [(kCandidates,
      Json.arr [Json.obj [(kContent, Json.obj [(kParts, Json.arr [Json.obj []])])]])])) =
      Except.error PyErr.err := rfl

/-- A non-empty JSON array is truthy. -/
theorem truthy_arr_cons (x : Json) (xs : List Json) : truthy (Json.arr (x :: xs)) = true := by
  simp [truthy]

/-- C4 amended: network/timeout errors, non-2xx statuses, unparsable
response bodies, responses whose `candidates`, `content` or `parts` are
missing or falsy, and JSON parse failure of the structured payload all
collapse to the single failure signal with no exception; but a response
whose first part lacks the `text` field raises an uncaught exception into
handler code. -/
theorem gemini_failure_collapse :
    (∀ sch : Bool, ∀ parse : List Char → Option Json,
      call_gemini_api sch parse HttpOutcome.netErr = Except.ok none ∧
      call_gemini_api sch parse HttpOutcome.httpErr = Except.ok none ∧
      call_gemini_api sch parse HttpOutcome.badJsonBody = Except.ok none) ∧
    (∀ sch parse fields, jlookup kCandidates fields = none →
      call_gemini_api sch parse (HttpOutcome.ok (Json.obj fields)) = Except.ok none) ∧
    (∀ sch parse fields cand, jlookup kCandidates fields = some cand →
      truthy cand = false →
      call_gemini_api sch parse (HttpOutcome.ok (Json.obj fields)) = Except.ok none) ∧
    (∀ sch parse fields c₀f rest,
      jlookup kCandidates fields = some (Json.arr (Json.obj c₀f :: rest)) →
      jlookup kContent c₀f = none →
      call_gemini_api sch parse (HttpOutcome.ok (Json.obj fields)) = Except.ok none) ∧
    (∀ sch parse fields c₀f rest content,
      jlookup kCandidates fields = some (Json.arr (Json.obj c₀f :: rest)) →
      jlookup kContent c₀f = some content → truthy content = false →
      call_gemini_api sch parse (HttpOutcome.ok (Json.obj fields)) = Except.ok none) ∧
    (∀ sch parse fields c₀f rest cf,
      jlookup kCandidates fields = some (Json.arr (Json.obj c₀f :: rest)) →
      jlookup kContent c₀f = some (Json.obj cf) → truthy (Json.obj cf) = true →
      jlookup kParts cf = none →
      call_gemini_api sch parse (HttpOutcome.ok (Json.obj fields)) = Except.ok none) ∧
    (∀ sch parse fields c₀f rest cf parts,
      jlookup kCandidates fields = some (Json.arr (Json.obj c₀f :: rest)) →
      jlookup kContent c₀f = some (Json.obj cf) → truthy (Json.obj cf) = true →
      jlookup kParts cf = some parts → truthy parts = false →
      call_gemini_api sch parse (HttpOutcome.ok (Json.obj fields)) = Except.ok none) ∧
    (∀ parse ts, parse (cleanGemini ts) = none →
      call_gemini_api true parse (HttpOutcome.ok (geminiEnvelope ts)) = Except.ok none) ∧
    call_gemini_api false (fun _ => none) (HttpOutcome.ok (Json.obj [(kCandidates,
      Json.arr [Json.obj [(kContent, Json.obj [(kParts, Json.arr [Json.obj []])])]])])) =
      Except.error PyErr.err := by
  refine ⟨fun sch parse => ⟨rfl, rfl, rfl⟩, ?_, ?_, ?_, ?_, ?_, ?_, ?_, rfl⟩
  · intro sch parse fields h
    simp [call_gemini_api, h]
  · intro sch parse fields cand h₁ h₂
    simp [call_gemini_api, h₁, h₂]
  · intro sch parse fields c₀f rest h₁ h₂
    simp [call_gemini_api, h₁, h₂, truthy_arr_cons]
  · intro sch parse fields c₀f rest content h₁ h₂ h₃
    simp [call_gemini_api, h₁, h₂, h₃, truthy_arr_cons]
  · intro sch parse fields c₀f rest cf h₁ h₂ h₃ h₄
    simp [call_gemini_api, h₁, h₂, h₃, h₄, truthy_arr_cons]
  · intro sch parse fields c₀f rest cf parts h₁ h₂ h₃ h₄ h₅
    simp [call_gemini_api, h₁, h₂, h₃, h₄, h₅, truthy_arr_cons]
  · intro parse ts h
    have e : call_gemini_api true parse (HttpOutcome.ok (geminiEnvelope ts)) =
        (match parse (cleanGemini ts) with
          | none => Except.ok none
          | some Json.null => Except.ok none
          | some v => Except.ok (some v)) := rfl
    rw [e, h]

/-- Witness for `gemini_failure_collapse`: a response body that is an
object without a `candidates` field collapses to the failure signal. -/
theorem gemini_failure_collapse_witness :
    call_gemini_api true (fun _ => none) (HttpOutcome.ok (Json.obj [])) =
      Except.ok none :=
  gemini_failure_collapse.2.1 true (fun _ => none) [] rfl

/-- C5: with a non-empty topic, whenever the video search yields no
candidate, `/suggest_video` invokes the generative fallback exactly once
(the call counter is `⟨1, 1⟩` on every fallback path) and returns its
structured title/url result with HTTP 200; if the fallback also fails it
returns exactly the `Failed to suggest video` / `#` sentinel with 200. -/
theorem suggest_video_generative_fallback :
    ∀ body parse so go, truthy (reqField kTopic body) = true →
      search_youtube_videos so = none →
      (call_gemini_api true parse go = Except.ok none →
        suggest_video_route body parse so go =
          (Except.ok ⟨200, Json.obj [(kTitle, Json.str sentinelTitle),
            (kUrl, Json.str (("#").data))]⟩, ⟨1, 1⟩)) ∧
      (∀ kvs, call_gemini_api true parse go = Except.ok (some (Json.obj kvs)) →
        kvs ≠ [] →
        suggest_video_route body parse so go =
          (Except.ok ⟨200, Json.obj [(kTitle, optJson (jlookup kTitle kvs)),
            (kUrl, optJson (jlookup kUrl kvs))]⟩, ⟨1, 1⟩)) := by
  intro body parse so go htr hs
  constructor
  · intro hg
    simp [suggest_video_route, htr, hs, hg]
  · intro kvs hg hne
    have hkv : truthy (Json.obj kvs) = true := by
      cases kvs with
      | nil => exact absurd rfl hne
      | cons a l => simp [truthy]
    simp [suggest_video_route, htr, hs, hg, hkv]

/-- Witness for `suggest_video_generative_fallback`: search and fallback
both fail, the sentinel is returned with one generative call. -/
theorem suggest_video_generative_fallback_witness :
    suggest_video_route [(kTopic, Json.str (("T").data))] (fun _ => none)
      HttpOutcome.netErr HttpOutcome.netErr =
      (Except.ok ⟨200, Json.obj [(kTitle, Json.str sentinelTitle),
        (kUrl, Json.str (("#").data))]⟩, ⟨1, 1⟩) :=
  (suggest_video_generative_fallback [(kTopic, Json.str (("T").data))] (fun _ => none)
    HttpOutcome.netErr HttpOutcome.netErr rfl rfl).1 rfl

/-- C7: on the upstream failure signal every handler still answers HTTP
200 with valid JSON carrying its documented fallback value: a null title,
empty arrays, the notes placeholder string, and the `Failed to suggest
video` / `#` sentinel. -/
theorem graceful_degradation_sentinels :
    (∀ body parse o, truthy (reqField kSyllabus body) = true →
      call_gemini_api false parse o = Except.ok none →
      extract_title_route body parse o =
        (Except.ok ⟨200, Json.obj [(kTitle, Json.null)]⟩, ⟨1, 0⟩)) ∧
    (∀ body parse o, truthy (reqField kSyllabus body) = true →
      call_gemini_api true parse o = Except.ok none →
      extract_topics_route body parse o =
        (Except.ok ⟨200, Json.obj [(kTopics, Json.arr [])]⟩, ⟨1, 0⟩)) ∧
    (∀ body parse o, truthy (reqField kTopic body) = true →
      call_gemini_api false parse o = Except.ok none →
      generate_notes_route body parse o =
        (Except.ok ⟨200, Json.obj [(kNotes, Json.str notesFallback)]⟩, ⟨1, 0⟩)) ∧
    (∀ body parse o, truthy (reqField kTopic body) = true →
      call_gemini_api true parse o = Except.ok none →
      generate_flashcards_route body parse o =
        (Except.ok ⟨200, Json.obj [(kFlashcards, Json.arr [])]⟩, ⟨1, 0⟩) ∧
      generate_questions_route body parse o =
        (Except.ok ⟨200, Json.obj [(kQuestions, Json.arr [])]⟩, ⟨1, 0⟩)) ∧
    (∀ body parse so go, truthy (reqField kTopic body) = true →
      search_youtube_videos so = none →
      call_gemini_api true parse go = Except.ok none →
      suggest_video_route body parse so go =
        (Except.ok ⟨200, Json.obj [(kTitle, Json.str sentinelTitle),
          (kUrl, Json.str (("#").data))]⟩, ⟨1, 1⟩)) := by
  refine ⟨?_, extract_topics_empty, ?_, ?_, ?_⟩
  · intro body parse o htr hc
    simp [extract_title_route, htr, hc, optJson]
  · intro body parse o htr hc
    simp [generate_notes_route, htr, hc]
  · intro body parse o htr hc
    exact ⟨generate_flashcards_empty body parse o htr hc,
      generate_questions_empty body parse o htr hc⟩
  · intro body parse so go htr hs hg
    simp [suggest_video_route, htr, hs, hg]

/-- Witness for `graceful_degradation_sentinels`: a failed completion call
yields a null title under HTTP 200. -/
theorem graceful_degradation_sentinels_witness :
    extract_title_route [(kSyllabus, Json.str (("s").data))] (fun _ => none)
      HttpOutcome.netErr =
      (Except.ok ⟨200, Json.obj [(kTitle, Json.null)]⟩, ⟨1, 0⟩) :=
  graceful_degradation_sentinels.1 [(kSyllabus, Json.str (("s").data))] (fun _ => none)
    HttpOutcome.netErr rfl rfl

/-- C8: startup exits with code 1 before serving anything when either
credential is absent, printing a diagnostic that names the missing
variable and where to obtain it; with both credentials present startup
proceeds. -/
theorem startup_credential_check :
    (∀ y, startup_check none y = some (1, googleMsgs)) ∧
    (∀ g, envFalsy g = false → startup_check g none = some (1, youtubeMsgs)) ∧
    (∀ g y, envFalsy g = false → envFalsy y = false → startup_check g y = none) ∧
    containsSeq (("GOOGLE_API_KEY").data) (googleMsgs.headD []) = true ∧
    containsSeq (("https://makersuite.google.com/app/apikey").data)
      (List.getD googleMsgs 2 []) = true ∧
    containsSeq (("YOUTUBE_API_KEY").data) (youtubeMsgs.headD []) = true ∧
    containsSeq (("console.cloud.google.com").data) (List.getD youtubeMsgs 2 []) = true := by
  refine ⟨fun y => rfl, ?_, ?_, by decide, by decide, by decide, by decide⟩
  · intro g hg
    unfold startup_check
    rw [hg]
    simp [envFalsy]
  · intro g y hg hy
    unfold startup_check
    rw [hg, hy]
    simp

/-- Witness for `startup_credential_check`: with the completion key set
and the search key absent, startup exits naming YOUTUBE_API_KEY. -/
theorem startup_credential_check_witness :
    startup_check (some (("k").data)) none = some (1, youtubeMsgs) :=
  startup_credential_check.2.1 (some (("k").data)) rfl
